import Mathlib

/-!
# PDF Batch Summarizer — verification of the orchestration core

Shallow embedding of the batch-summarizer front end:
* `types.ts` — `ProcessingStatus`, `SummaryResult`;
* `App.tsx` — `handleFileSelect`, `constructFullPrompt`, `handleGenerate`
  (the sequential batch loop over the selected files), `handleDownloadZip`,
  `allDone`;
* `services/geminiService.ts` — `generateSummaryFromText` (provider A);
* `services/volcanoService.ts` — `generateSummaryFromVolcano` (provider B).

External collaborators (pdf.js text extraction, the two remote model
endpoints, JSZip) are modelled as explicit parameters describing the outcome
they would deliver; the JavaScript string primitives the code relies on
(`trim`, `startsWith`, `replace` with a plain-string pattern) are embedded
over `List Char` with JavaScript semantics.
-/

namespace PdfBatch

/-- A JavaScript thrown value as seen by a `catch` block: either an `Error`
carrying a message, or any non-`Error` value (for which no message exists). -/
inductive JsThrown where
  | err (message : String)
  | nonErr
  deriving DecidableEq, Repr

deriving instance DecidableEq for Except
deriving instance Repr for Except

/-- `error instanceof Error ? error.message : 'An unknown error occurred'`
(App.tsx, line 124). -/
def errorMessageOf : JsThrown → String
  | .err m => m
  | .nonErr => "An unknown error occurred"

/-- JavaScript `String.prototype.trim` over the character list (whitespace as
recognised by `Char.isWhitespace`). -/
def jsTrimList (s : List Char) : List Char :=
  ((s.dropWhile Char.isWhitespace).reverse.dropWhile Char.isWhitespace).reverse

/-- JavaScript `String.prototype.trim`. -/
def jsTrim (s : String) : String :=
  String.mk (jsTrimList s.data)

/-- JavaScript `String.prototype.startsWith` with a plain-string argument. -/
def jsStartsWith (s pat : String) : Bool :=
  List.isPrefixOf pat.data s.data

/-- JavaScript `String.prototype.replace` with a plain-string pattern: only the
FIRST occurrence of `pat` is replaced by `rep`; the string is returned
unchanged when `pat` does not occur. -/
def replaceFirst (pat rep : List Char) : List Char → List Char
  | [] => if pat.isEmpty then rep else []
  | c :: rest =>
    if List.isPrefixOf pat (c :: rest) then rep ++ (c :: rest).drop pat.length
    else c :: replaceFirst pat rep rest

/-- JavaScript `s.replace(pat, rep)` on strings (plain-string pattern). -/
def jsReplace (s pat rep : String) : String :=
  String.mk (replaceFirst pat.data rep.data s.data)

/-! ## `types.ts` -/

/-- `ProcessingStatus` (types.ts). -/
inductive ProcessingStatus where
  | idle
  | processing
  | success
  | error
  deriving DecidableEq, Repr

/-- `SummaryResult` (types.ts); the optional `error` field is an `Option`. -/
structure SummaryResult where
  id : String
  fileName : String
  content : String
  status : ProcessingStatus
  error : Option String := none
  deriving DecidableEq, Repr

/-! ## Selected files and the extraction collaborator -/

/-- A selected browser `File` together with the outcome the external
`parsePdf` collaborator (pdf.js, App.tsx lines 55-66) would deliver for it:
a thrown fault, or the concatenated page text. `type` is the MIME type used
by the `handleFileSelect` filter. -/
structure PdfFile where
  name : String
  lastModified : Nat
  type : String
  extraction : Except JsThrown String
  deriving DecidableEq, Repr

/-! ## `services/geminiService.ts` — provider A -/

/-- `generateSummaryFromText` (geminiService.ts): forwards the prompt to the
Gemini endpoint and returns `response.text` unchanged; a caught fault becomes
an in-band error string. The remote call is external: `remote` gives the
outcome of `ai.models.generateContent` for each prompt (`modelName` is part
of the request and does not influence the local control flow). -/
def generateSummaryFromText (remote : String → Except JsThrown String)
    (fullPrompt : String) (modelName : String) : String :=
  match remote fullPrompt with
  | .ok response => response
  | .error (.err m) => "Error during summary generation: " ++ m
  | .error .nonErr => "An unknown error occurred during summary generation."

/-! ## `services/volcanoService.ts` — provider B -/

/-- `VolcanoCredentials` (volcanoService.ts). -/
structure VolcanoCredentials where
  apiKey : String
  deriving DecidableEq, Repr

/-- The `message` object of one completion choice; `content` is absent or a
string (`""` standing for a falsy string value). -/
structure VolcanoMessage where
  content : Option String
  deriving DecidableEq, Repr

/-- One element of the response's `choices` array; `message` may be absent
(the code reads it with `?.`). -/
structure VolcanoChoice where
  message : Option VolcanoMessage
  deriving DecidableEq, Repr

/-- The parsed JSON body of a Volcano response, at the paths the code
inspects: `error.message` (absent, or a string — `""` standing for a falsy
string) and `choices`. -/
structure VolcanoJsonBody where
  errorMessage : Option String
  choices : Option (List VolcanoChoice)
  deriving DecidableEq, Repr

/-- The observable outcome of the `fetch` to the Volcano endpoint: the fetch
itself rejects, or a response arrives with its `ok` flag, `status` code and
the outcome of `response.json()` (which may itself throw on malformed
JSON). -/
inductive FetchOutcome where
  | netError (e : JsThrown)
  | response (ok : Bool) (status : Nat) (body : Except JsThrown VolcanoJsonBody)
  deriving DecidableEq, Repr

/-- The `try` block of `generateSummaryFromVolcano` (volcanoService.ts lines
58-84): `.error` for every path that throws, `.ok` for the returned content.
On a non-ok response, `response.json().catch(() => ({}))` turns a JSON parse
failure into `{}` (no `error.message`), and the falsy-test
`errorBody?.error?.message || ...` falls back to the generic status message;
on an ok response the four structure checks of line 77 each throw the
invalid-structure `Error`. -/
def volcanoTryBlock (net : FetchOutcome) : Except JsThrown String :=
  match net with
  | .netError e => .error e
  | .response ok status body =>
    if !ok then
      let parsedMessage : Option String :=
        match body with
        | .error _ => none
        | .ok b => b.errorMessage
      let errorMessage : String :=
        match parsedMessage with
        | some m =>
          if m = "" then "API request failed with status " ++ toString status else m
        | none => "API request failed with status " ++ toString status
      .error (.err errorMessage)
    else
      match body with
      | .error e => .error e
      | .ok data =>
        match data.choices with
        | none => .error (.err "Received an invalid response structure from the API.")
        | some choices =>
          match choices with
          | [] => .error (.err "Received an invalid response structure from the API.")
          | choice0 :: _ =>
            match choice0.message with
            | none => .error (.err "Received an invalid response structure from the API.")
            | some msg =>
              match msg.content with
              | none => .error (.err "Received an invalid response structure from the API.")
              | some content =>
                if content = "" then
                  .error (.err "Received an invalid response structure from the API.")
                else .ok content

/-- `generateSummaryFromVolcano` (volcanoService.ts): empty credential is
answered locally, before any network interaction; otherwise the `try` block
runs against the network outcome `net` and every caught fault is converted
into an in-band error string by the `catch` clause (lines 85-91). -/
def generateSummaryFromVolcano (net : FetchOutcome) (fullPrompt : String)
    (creds : VolcanoCredentials) : String :=
  if creds.apiKey = "" then
    "Error: Volcano Engine API Key is required but was not provided."
  else
    match volcanoTryBlock net with
    | .ok content => content
    | .error (.err m) => "Error during Volcano Engine summary generation: " ++ m
    | .error .nonErr => "An unknown error occurred during Volcano Engine summary generation."

/-! ## `App.tsx` — prompt construction and the batch orchestrator -/

/-- `constructFullPrompt` (App.tsx lines 68-81), the template literal
transcribed verbatim. -/
def constructFullPrompt (pdfText userPrompt : String) : String :=
  "\n          Based on the following user request, please analyze the provided PDF content and generate a response.\n    \n          USER REQUEST:\n          \""
    ++ userPrompt
    ++ "\"\n    \n          The final output should be in plain TEXT format.\n    \n          --- PDF CONTENT START ---\n          "
    ++ pdfText
    ++ "\n          --- PDF CONTENT END ---\n        "

/-- The body of the `try` block of one iteration of the `handleGenerate` loop
(App.tsx lines 101-118): extraction (which may throw), the blank-text check,
then the selected model client (abstracted as `client`, which returns the
summary string or throws), then the `summary.startsWith("Error")` check.
`.ok` is the summary accepted as SUCCESS, `.error` the fault reaching the
`catch` clause. -/
def processOutcome (client : String → Except JsThrown String) (prompt : String)
    (f : PdfFile) : Except JsThrown String :=
  match f.extraction with
  | .error e => .error e
  | .ok pdfText =>
    if jsTrim pdfText = "" then
      .error (.err "Could not extract any text from the PDF. It might be an image-only PDF.")
    else
      match client (constructFullPrompt pdfText prompt) with
      | .error e => .error e
      | .ok summary =>
        if jsStartsWith summary "Error" then .error (.err summary)
        else .ok summary

/-- One initial ledger entry (App.tsx lines 91-96). -/
def initResult (f : PdfFile) : SummaryResult :=
  { id := f.name ++ "-" ++ toString f.lastModified
    fileName := f.name
    content := ""
    status := .processing
    error := none }

/-- How the ledger entry of file `i` is rewritten once its outcome is known:
SUCCESS keeps the entry and sets `content` (App.tsx lines 120-122), ERROR
keeps the entry and sets `error` to the caught fault's message (lines
126-128). -/
def applyOutcome (res : SummaryResult) : Except JsThrown String → SummaryResult
  | .ok summary => { res with status := .success, content := summary }
  | .error e => { res with status := .error, error := some (errorMessageOf e) }

/-- `prev.map((res, index) => index === i ? upd(res) : res)` — the functional
ledger update used by both `setResults` calls in the loop. -/
def setAt (upd : SummaryResult → SummaryResult) (i : Nat)
    (rs : List SummaryResult) : List SummaryResult :=
  List.mapIdx (fun index res => if index = i then upd res else res) rs

/-- The `for` loop of `handleGenerate` (App.tsx lines 99-130), processing the
remaining files `fs` whose first element has index `i`, over the current
ledger `rs`. -/
def loopFrom (client : String → Except JsThrown String) (prompt : String) :
    Nat → List PdfFile → List SummaryResult → List SummaryResult
  | _, [], rs => rs
  | i, f :: fs, rs =>
    loopFrom client prompt (i + 1) fs
      (setAt (fun res => applyOutcome res (processOutcome client prompt f)) i rs)

/-- The ledger as observable after the loop has completed its first `k`
iterations (the initial ledger of App.tsx lines 91-97, with the first `k`
files processed). -/
def ledgerAfter (client : String → Except JsThrown String) (prompt : String)
    (files : List PdfFile) (k : Nat) : List SummaryResult :=
  loopFrom client prompt 0 (files.take k) (files.map initResult)

/-- The ledger once the loop has processed every file. -/
def finalLedger (client : String → Except JsThrown String) (prompt : String)
    (files : List PdfFile) : List SummaryResult :=
  loopFrom client prompt 0 files (files.map initResult)

/-! ## `App.tsx` — component state and handlers -/

/-- The component state the claims are about: `files`, `prompt`, `results`,
`isProcessing`, `globalError` (App.tsx lines 22-29). -/
structure AppState where
  files : List PdfFile
  prompt : String
  results : List SummaryResult
  isProcessing : Bool
  globalError : String
  deriving DecidableEq, Repr

/-- `handleGenerate` (App.tsx lines 83-133) as a transformer of the component
state, with the selected model client abstracted as `client`: the
empty-selection / blank-prompt guard leaves everything but `globalError`
untouched; otherwise the batch runs to completion, the ledger is replaced by
the loop's final ledger, `isProcessing` ends `false` and `globalError` is
cleared. -/
def handleGenerate (client : String → Except JsThrown String)
    (st : AppState) : AppState :=
  if st.files.length = 0 ∨ jsTrim st.prompt = "" then
    { st with globalError := "Please select a folder with PDFs and enter a prompt." }
  else
    { st with
      results := finalLedger client st.prompt st.files
      isProcessing := false
      globalError := "" }

/-- `handleFileSelect` (App.tsx lines 40-53), non-null selection branch:
keeps only files whose MIME type is `application/pdf`, sets the notice when
anything was dropped, and resets the ledger. -/
def handleFileSelect (selectedFiles : List PdfFile) (st : AppState) : AppState :=
  let pdfFiles := selectedFiles.filter (fun f => f.type == "application/pdf")
  { st with
    globalError :=
      if pdfFiles.length ≠ selectedFiles.length then
        "Some selected files were not PDFs and have been ignored."
      else ""
    files := pdfFiles
    results := [] }

/-! ## `App.tsx` — export -/

/-- What `handleDownloadZip` produces: a global notice, or the archive's
entries (output file name, content) in order. -/
inductive DownloadOutcome where
  | notice (message : String)
  | archive (entries : List (String × String))
  deriving DecidableEq, Repr

/-- `result.fileName.replace('.pdf', '.txt')` (App.tsx line 145) — JavaScript
`replace` with a plain-string pattern, i.e. first occurrence only. -/
def zipEntryName (fileName : String) : String :=
  jsReplace fileName ".pdf" ".txt"

/-- `handleDownloadZip` (App.tsx lines 135-157): with no SUCCESS entry it
sets the notice and returns; otherwise it adds one archive entry per SUCCESS
entry, in ledger order. -/
def handleDownloadZip (results : List SummaryResult) : DownloadOutcome :=
  let successfulResults := results.filter (fun r => r.status == ProcessingStatus.success)
  if successfulResults.length = 0 then
    .notice "No successful summaries to download."
  else
    .archive (successfulResults.map (fun r => (zipEntryName r.fileName, r.content)))

/-- `allDone` (App.tsx line 166): the download control is rendered only when
this is `true`. -/
def allDone (results : List SummaryResult) (isProcessing : Bool) : Bool :=
  decide (0 < results.length) && !isProcessing

/-! ## Concrete sample data used by the witnesses -/

/-- A model client answering every prompt with a fixed summary. -/
def okClient : String → Except JsThrown String := fun _ => .ok "a summary"

/-- A model client answering every prompt with the empty string. -/
def emptyClient : String → Except JsThrown String := fun _ => .ok ""

/-- A model client whose response text carries the in-band error marker. -/
def markerClient : String → Except JsThrown String := fun _ => .ok "Error: xyz"

/-- A PDF whose extraction succeeds with real text. -/
def goodFile : PdfFile :=
  { name := "good.pdf", lastModified := 1, type := "application/pdf",
    extraction := .ok "some extracted text" }

/-- A PDF whose extraction yields only whitespace (an image-only document). -/
def blankFile : PdfFile :=
  { name := "blank.pdf", lastModified := 2, type := "application/pdf",
    extraction := .ok "   " }

/-- A prior-ledger entry used to check that stale entries are not retained. -/
def staleEntry : SummaryResult :=
  { id := "old", fileName := "old.pdf", content := "kept",
    status := ProcessingStatus.success, error := none }

/-- A SUCCESS ledger entry whose file name contains `".pdf"` twice. -/
def doublePdfEntry : SummaryResult :=
  { id := "a.pdf.pdf-1", fileName := "a.pdf.pdf", content := "body",
    status := ProcessingStatus.success, error := none }

/-- A SUCCESS ledger entry with the ordinary name `"report.pdf"`. -/
def reportEntry : SummaryResult :=
  { id := "report.pdf-1", fileName := "report.pdf", content := "body",
    status := ProcessingStatus.success, error := none }

/-- The state from which the witnesses start a batch. -/
def sampleState : AppState :=
  { files := [goodFile, blankFile], prompt := "Summarize this document.",
    results := [staleEntry], isProcessing := false, globalError := "" }

/-- The same state with a whitespace-only prompt. -/
def blankPromptState : AppState :=
  { files := [goodFile], prompt := "   ", results := [staleEntry],
    isProcessing := false, globalError := "" }

/-! ## Lemmas about the ledger update and the loop -/

theorem setAt_length (upd : SummaryResult → SummaryResult) (i : Nat)
    (rs : List SummaryResult) : (setAt upd i rs).length = rs.length := by
  simp [setAt, List.length_mapIdx]

theorem setAt_getElem? (upd : SummaryResult → SummaryResult) (i j : Nat)
    (rs : List SummaryResult) :
    (setAt upd i rs)[j]? = if j = i then rs[j]?.map upd else rs[j]? := by
  simp only [setAt, List.mapIdx_eq_enum_map, List.getElem?_map, List.getElem?_enum]
  cases rs[j]? with
  | none => simp
  | some r => by_cases h : j = i <;> simp [Function.uncurry, h]

theorem loopFrom_length (client : String → Except JsThrown String) (prompt : String)
    (fs : List PdfFile) : ∀ (i : Nat) (rs : List SummaryResult),
      (loopFrom client prompt i fs rs).length = rs.length := by
  induction fs with
  | nil => intro i rs; rfl
  | cons f fs ih => intro i rs; simp only [loopFrom]; rw [ih, setAt_length]

theorem loopFrom_getElem? (client : String → Except JsThrown String) (prompt : String)
    (fs : List PdfFile) : ∀ (i j : Nat) (rs : List SummaryResult),
      (loopFrom client prompt i fs rs)[j]? =
        if i ≤ j then
          match fs[j - i]? with
          | some f => rs[j]?.map (fun res => applyOutcome res (processOutcome client prompt f))
          | none => rs[j]?
        else rs[j]? := by
  induction fs with
  | nil =>
    intro i j rs
    simp only [loopFrom, List.getElem?_nil]
    split <;> rfl
  | cons f fs ih =>
    intro i j rs
    simp only [loopFrom]
    rw [ih]
    rcases Nat.lt_trichotomy j i with h | h | h
    · have h1 : ¬ i ≤ j := by omega
      have h2 : ¬ i + 1 ≤ j := by omega
      have h3 : j ≠ i := by omega
      simp [h1, h2, setAt_getElem?, h3]
    · subst h
      have h2 : ¬ j + 1 ≤ j := by omega
      have h1 : j ≤ j := Nat.le_refl j
      simp [h1, h2, setAt_getElem?, Nat.sub_self]
    · have h1 : i ≤ j := by omega
      have h2 : i + 1 ≤ j := by omega
      have h3 : j ≠ i := by omega
      have h4 : j - i = (j - (i + 1)) + 1 := by omega
      rw [h4]
      cases hfs : fs[j - (i + 1)]? with
      | none => simp [h1, h2, h3, hfs, setAt_getElem?]
      | some f' => simp [h1, h2, h3, hfs, setAt_getElem?]

theorem ledgerAfter_getElem? (client : String → Except JsThrown String) (prompt : String)
    (files : List PdfFile) (k j : Nat) :
    (ledgerAfter client prompt files k)[j]? =
      files[j]?.map (fun f =>
        if j < k then applyOutcome (initResult f) (processOutcome client prompt f)
        else initResult f) := by
  unfold ledgerAfter
  rw [loopFrom_getElem?]
  simp only [Nat.zero_le, if_true, Nat.sub_zero, List.getElem?_take, List.getElem?_map]
  by_cases hk : j < k
  · simp only [hk, if_true]
    cases files[j]? <;> simp
  · simp only [hk, if_false]

theorem ledgerAfter_length (client : String → Except JsThrown String) (prompt : String)
    (files : List PdfFile) (k : Nat) :
    (ledgerAfter client prompt files k).length = files.length := by
  unfold ledgerAfter
  rw [loopFrom_length]
  simp

theorem finalLedger_eq_ledgerAfter (client : String → Except JsThrown String)
    (prompt : String) (files : List PdfFile) :
    finalLedger client prompt files = ledgerAfter client prompt files files.length := by
  unfold finalLedger ledgerAfter
  rw [List.take_length]

theorem finalLedger_getElem? (client : String → Except JsThrown String) (prompt : String)
    (files : List PdfFile) (j : Nat) :
    (finalLedger client prompt files)[j]? =
      files[j]?.map (fun f => applyOutcome (initResult f) (processOutcome client prompt f)) := by
  rw [finalLedger_eq_ledgerAfter, ledgerAfter_getElem?]
  cases hj : files[j]? with
  | none => rfl
  | some f =>
    have hlt : j < files.length := (List.getElem?_eq_some.mp hj).1
    simp [hlt]

theorem finalLedger_length (client : String → Except JsThrown String) (prompt : String)
    (files : List PdfFile) :
    (finalLedger client prompt files).length = files.length := by
  rw [finalLedger_eq_ledgerAfter, ledgerAfter_length]

theorem applyOutcome_fileName (res : SummaryResult) (out : Except JsThrown String) :
    (applyOutcome res out).fileName = res.fileName := by
  cases out <;> rfl

/-! ## Lemmas about `replaceFirst` -/

theorem isPrefixOf_self (l : List Char) : List.isPrefixOf l l = true := by
  induction l with
  | nil => rfl
  | cons c cs ih => simp [List.isPrefixOf, ih]

/-- When the pattern's first occurrence in `stem ++ pat` is the final one
(no match starts inside `stem`), replacing the first occurrence replaces
exactly the suffix. -/
theorem replaceFirst_append_pat (pat rep : List Char) (hpat : pat ≠ [])
    (stem : List Char)
    (hno : ∀ i, i < stem.length → List.isPrefixOf pat ((stem ++ pat).drop i) = false) :
    replaceFirst pat rep (stem ++ pat) = stem ++ rep := by
  induction stem with
  | nil =>
    cases pat with
    | nil => exact absurd rfl hpat
    | cons c cs =>
      simp only [List.nil_append, replaceFirst, isPrefixOf_self, if_true]
      simp [List.drop_length]
  | cons a stem ih =>
    have h0 : List.isPrefixOf pat (a :: (stem ++ pat)) = false := by
      have := hno 0 (by simp)
      simpa using this
    simp only [List.cons_append, replaceFirst, List.append_eq, h0, Bool.false_eq_true,
      if_false]
    rw [ih]
    intro i hi
    have := hno (i + 1) (by simpa using Nat.succ_lt_succ hi)
    simpa using this

/-! ## Claims -/

/-- **C5**: for every prompt and every possible network outcome, invoking the
Variant B client `generateSummaryFromVolcano` with an empty credential
returns the local credential-failure string; the result does not depend on
the network outcome at all (the HTTP request is never issued) and carries the
in-band `"Error"` failure marker. -/
theorem C5_volcanoCredentialGuard (net : FetchOutcome) (fullPrompt : String) :
    generateSummaryFromVolcano net fullPrompt ⟨""⟩ =
        "Error: Volcano Engine API Key is required but was not provided." ∧
      jsStartsWith (generateSummaryFromVolcano net fullPrompt ⟨""⟩) "Error" = true := by
  have h : generateSummaryFromVolcano net fullPrompt ⟨""⟩ =
      "Error: Volcano Engine API Key is required but was not provided." := rfl
  refine ⟨h, ?_⟩
  rw [h]
  decide

/-- **C6**: for every possible remote response, the Variant B client
`generateSummaryFromVolcano` never lets a thrown fault escape — it always
returns a string, and each failure path is normalized into the same in-band
failure channel: on a non-2xx response, the parsed JSON `error.message` is
carried when present (and truthy), otherwise the generic
`"API request failed with status <code>"` message; on a 2xx response lacking
at least one completion choice with non-empty message content, the
invalid-structure failure; network exceptions and malformed JSON bodies are
normalized the same way; a 2xx response with non-empty content is returned
as is. -/
theorem C6_volcanoFailureNormalization :
    (∀ p k st m choices, k ≠ "" → m ≠ "" →
      generateSummaryFromVolcano (.response false st (.ok ⟨some m, choices⟩)) p ⟨k⟩ =
        "Error during Volcano Engine summary generation: " ++ m) ∧
    (∀ p k st e, k ≠ "" →
      generateSummaryFromVolcano (.response false st (.error e)) p ⟨k⟩ =
        "Error during Volcano Engine summary generation: API request failed with status "
          ++ toString st) ∧
    (∀ p k st choices, k ≠ "" →
      generateSummaryFromVolcano (.response false st (.ok ⟨none, choices⟩)) p ⟨k⟩ =
        "Error during Volcano Engine summary generation: API request failed with status "
          ++ toString st) ∧
    (∀ p k st choices, k ≠ "" →
      generateSummaryFromVolcano (.response false st (.ok ⟨some "", choices⟩)) p ⟨k⟩ =
        "Error during Volcano Engine summary generation: API request failed with status "
          ++ toString st) ∧
    (∀ p k st em, k ≠ "" →
      generateSummaryFromVolcano (.response true st (.ok ⟨em, none⟩)) p ⟨k⟩ =
        "Error during Volcano Engine summary generation: Received an invalid response structure from the API.") ∧
    (∀ p k st em, k ≠ "" →
      generateSummaryFromVolcano (.response true st (.ok ⟨em, some []⟩)) p ⟨k⟩ =
        "Error during Volcano Engine summary generation: Received an invalid response structure from the API.") ∧
    (∀ p k st em rest, k ≠ "" →
      generateSummaryFromVolcano (.response true st (.ok ⟨em, some (⟨none⟩ :: rest)⟩)) p ⟨k⟩ =
        "Error during Volcano Engine summary generation: Received an invalid response structure from the API.") ∧
    (∀ p k st em rest, k ≠ "" →
      generateSummaryFromVolcano
          (.response true st (.ok ⟨em, some (⟨some ⟨none⟩⟩ :: rest)⟩)) p ⟨k⟩ =
        "Error during Volcano Engine summary generation: Received an invalid response structure from the API.") ∧
    (∀ p k st em rest, k ≠ "" →
      generateSummaryFromVolcano
          (.response true st (.ok ⟨em, some (⟨some ⟨some ""⟩⟩ :: rest)⟩)) p ⟨k⟩ =
        "Error during Volcano Engine summary generation: Received an invalid response structure from the API.") ∧
    (∀ p k st e, k ≠ "" →
      generateSummaryFromVolcano (.response true st (.error e)) p ⟨k⟩ =
        match e with
        | .err m => "Error during Volcano Engine summary generation: " ++ m
        | .nonErr => "An unknown error occurred during Volcano Engine summary generation.") ∧
    (∀ p k e, k ≠ "" →
      generateSummaryFromVolcano (.netError e) p ⟨k⟩ =
        match e with
        | .err m => "Error during Volcano Engine summary generation: " ++ m
        | .nonErr => "An unknown error occurred during Volcano Engine summary generation.") ∧
    (∀ p k st em rest c, k ≠ "" → c ≠ "" →
      generateSummaryFromVolcano
          (.response true st (.ok ⟨em, some (⟨some ⟨some c⟩⟩ :: rest)⟩)) p ⟨k⟩ = c) := by
  refine ⟨?_, ?_, ?_, ?_, ?_, ?_, ?_, ?_, ?_, ?_, ?_, ?_⟩
  · intro p k st m choices hk hm
    simp [generateSummaryFromVolcano, volcanoTryBlock, hk, hm]
  · intro p k st e hk
    simp only [generateSummaryFromVolcano, volcanoTryBlock, hk, if_false, Bool.not_false,
      if_true]
    rw [← String.append_assoc]
    congr 1
  · intro p k st choices hk
    simp only [generateSummaryFromVolcano, volcanoTryBlock, hk, if_false, Bool.not_false,
      if_true]
    rw [← String.append_assoc]
    congr 1
  · intro p k st choices hk
    simp only [generateSummaryFromVolcano, volcanoTryBlock, hk, if_false, Bool.not_false,
      if_true]
    rw [← String.append_assoc]
    congr 1
  · intro p k st em hk
    simp [generateSummaryFromVolcano, volcanoTryBlock, hk]
  · intro p k st em hk
    simp [generateSummaryFromVolcano, volcanoTryBlock, hk]
  · intro p k st em rest hk
    simp [generateSummaryFromVolcano, volcanoTryBlock, hk]
  · intro p k st em rest hk
    simp [generateSummaryFromVolcano, volcanoTryBlock, hk]
  · intro p k st em rest hk
    simp [generateSummaryFromVolcano, volcanoTryBlock, hk]
  · intro p k st e hk
    cases e <;> simp [generateSummaryFromVolcano, volcanoTryBlock, hk]
  · intro p k e hk
    cases e <;> simp [generateSummaryFromVolcano, volcanoTryBlock, hk]
  · intro p k st em rest c hk hc
    simp [generateSummaryFromVolcano, volcanoTryBlock, hk, hc]

/-- Witness for C6 at concrete inputs: a 502 with a parsed error message, a
500 with an unparseable body, an invalid 200 body, a rejected fetch, and a
valid 200 response. -/
theorem C6_volcanoFailureNormalization_witness :
    generateSummaryFromVolcano (.response false 502 (.ok ⟨some "quota exceeded", none⟩))
        "p" ⟨"key"⟩ =
      "Error during Volcano Engine summary generation: quota exceeded" ∧
    generateSummaryFromVolcano (.response false 500 (.error .nonErr)) "p" ⟨"key"⟩ =
      "Error during Volcano Engine summary generation: API request failed with status 500" ∧
    generateSummaryFromVolcano (.response true 200 (.ok ⟨none, some []⟩)) "p" ⟨"key"⟩ =
      "Error during Volcano Engine summary generation: Received an invalid response structure from the API." ∧
    generateSummaryFromVolcano (.netError (.err "connection refused")) "p" ⟨"key"⟩ =
      "Error during Volcano Engine summary generation: connection refused" ∧
    generateSummaryFromVolcano
        (.response true 200 (.ok ⟨none, some (⟨some ⟨some "a summary"⟩⟩ :: [])⟩)) "p" ⟨"key"⟩ =
      "a summary" := by
  refine ⟨?_, ?_, ?_, ?_, ?_⟩
  · exact C6_volcanoFailureNormalization.1 "p" "key" 502 "quota exceeded" none
      (by decide) (by decide)
  · exact (C6_volcanoFailureNormalization.2.1 "p" "key" 500 .nonErr (by decide)).trans
      (by decide)
  · exact C6_volcanoFailureNormalization.2.2.2.2.2.1 "p" "key" 200 none (by decide)
  · exact C6_volcanoFailureNormalization.2.2.2.2.2.2.2.2.2.2.1 "p" "key"
      (.err "connection refused") (by decide)
  · exact C6_volcanoFailureNormalization.2.2.2.2.2.2.2.2.2.2.2 "p" "key" 200 none []
      "a summary" (by decide) (by decide)

/-- **C2 fails as stated**: `fileName.replace('.pdf', '.txt')` replaces the
FIRST occurrence of `".pdf"`, not the suffix. For the SUCCESS entry named
`"a.pdf.pdf"` (which ends in `".pdf"`, with stem `"a.pdf"`), the export
produces `"a.txt.pdf"`, not the stem followed by `".txt"`. -/
theorem C2_exportName_counterexample :
    ("a.pdf.pdf" : String) = "a.pdf" ++ ".pdf" ∧
    doublePdfEntry.fileName = "a.pdf.pdf" ∧
    doublePdfEntry.status = ProcessingStatus.success ∧
    handleDownloadZip [doublePdfEntry] = .archive [("a.txt.pdf", "body")] ∧
    ("a.txt.pdf" : String) ≠ "a.pdf" ++ ".txt" := by
  refine ⟨by decide, by decide, by decide, by decide, by decide⟩

/-- **C2 (amended)**: for every SUCCESS entry included in the export, the
exported artifact's name is the source file name with the FIRST occurrence of
`".pdf"` replaced by `".txt"`; in particular, whenever the file name ends in
`".pdf"` and no occurrence of `".pdf"` starts inside the stem, the produced
name is the stem followed by `".txt"`. -/
theorem C2_exportName (results : List SummaryResult) (r : SummaryResult)
    (stem : List Char)
    (hr : r ∈ results) (hs : r.status = ProcessingStatus.success)
    (hname : r.fileName.data = stem ++ (".pdf" : String).data)
    (hfirst : ∀ i, i < stem.length →
      List.isPrefixOf (".pdf" : String).data (r.fileName.data.drop i) = false) :
    zipEntryName r.fileName = jsReplace r.fileName ".pdf" ".txt" ∧
    ∃ entries, handleDownloadZip results = .archive entries ∧
      (String.mk (stem ++ (".txt" : String).data), r.content) ∈ entries := by
  have hmem : r ∈ results.filter (fun x => x.status == ProcessingStatus.success) :=
    List.mem_filter.mpr ⟨hr, by simp [hs]⟩
  have hne : (results.filter (fun x => x.status == ProcessingStatus.success)).length ≠ 0 := by
    have := List.length_pos.mpr (List.ne_nil_of_mem hmem)
    omega
  refine ⟨rfl,
    (results.filter (fun x => x.status == ProcessingStatus.success)).map
      (fun x => (zipEntryName x.fileName, x.content)), ?_, ?_⟩
  · unfold handleDownloadZip
    simp only [hne, if_false]
  · apply List.mem_map.mpr
    refine ⟨r, hmem, ?_⟩
    have hrepl : replaceFirst (".pdf" : String).data (".txt" : String).data r.fileName.data =
        stem ++ (".txt" : String).data := by
      rw [hname]
      exact replaceFirst_append_pat _ _ (by decide) stem (by rw [← hname]; exact hfirst)
    simp only [zipEntryName, jsReplace, hrepl]

/-- Witness for C2 (amended) at the single SUCCESS entry `"report.pdf"`. -/
theorem C2_exportName_witness :
    zipEntryName reportEntry.fileName = jsReplace reportEntry.fileName ".pdf" ".txt" ∧
    ∃ entries, handleDownloadZip [reportEntry] = .archive entries ∧
      (String.mk (("report" : String).data ++ (".txt" : String).data),
        reportEntry.content) ∈ entries :=
  C2_exportName [reportEntry] reportEntry ("report" : String).data
    (by decide) (by decide) (by decide) (by decide)

/-- **C3**: if the selected file list is empty or the prompt is
blank/whitespace-only, `handleGenerate` rejects immediately: the only state
change is the single global notice — the results ledger is not touched,
`isProcessing` is not set, and no per-file processing starts. -/
theorem C3_preconditionGuard (client : String → Except JsThrown String) (st : AppState)
    (h : st.files = [] ∨ jsTrim st.prompt = "") :
    handleGenerate client st =
        { st with globalError := "Please select a folder with PDFs and enter a prompt." } ∧
      (handleGenerate client st).results = st.results ∧
      (handleGenerate client st).isProcessing = st.isProcessing ∧
      (handleGenerate client st).globalError =
        "Please select a folder with PDFs and enter a prompt." := by
  have hcond : st.files.length = 0 ∨ jsTrim st.prompt = "" := by
    rcases h with h | h
    · left
      simp [h]
    · right
      exact h
  have hgen : handleGenerate client st =
      { st with globalError := "Please select a folder with PDFs and enter a prompt." } := by
    simp only [handleGenerate, hcond, if_pos]
  exact ⟨hgen, by rw [hgen], by rw [hgen], by rw [hgen]⟩

/-- Witness for C3: one valid file, a whitespace-only prompt, a non-empty
prior ledger that must stay untouched. -/
theorem C3_preconditionGuard_witness :
    handleGenerate okClient blankPromptState =
      { blankPromptState with
        globalError := "Please select a folder with PDFs and enter a prompt." } :=
  (C3_preconditionGuard okClient blankPromptState (Or.inr (by decide))).1

/-- **C1**: in a batch where processing of file `k` fails (extraction fault,
blank extracted text, or a generation failure — anything making the per-file
outcome an error) and every other file succeeds, exactly entry `k` ends ERROR
— with the fault's message, or the generic unknown-error string — and every
other entry ends SUCCESS: one file's failure never aborts the batch. -/
theorem C1_sequentialIsolation (client : String → Except JsThrown String)
    (prompt : String) (files : List PdfFile) (k : Nat) (e : JsThrown)
    (hk : k < files.length)
    (hfail : processOutcome client prompt files[k] = .error e)
    (hok : ∀ j, (hj : j < files.length) → j ≠ k →
      ∃ s, processOutcome client prompt files[j] = .ok s) :
    ∀ j, (hj : j < files.length) →
      ∃ r, (finalLedger client prompt files)[j]? = some r ∧
        (r.status = if j = k then ProcessingStatus.error else ProcessingStatus.success) ∧
        (j = k → r.error = some (errorMessageOf e)) := by
  intro j hj
  refine ⟨applyOutcome (initResult files[j]) (processOutcome client prompt files[j]),
    ?_, ?_, ?_⟩
  · rw [finalLedger_getElem?, List.getElem?_eq_getElem hj]
    rfl
  · by_cases hjk : j = k
    · subst hjk
      rw [hfail]
      simp [applyOutcome]
    · obtain ⟨s, hsj⟩ := hok j hj hjk
      rw [hsj]
      simp [applyOutcome, hjk]
  · intro hjk
    subst hjk
    rw [hfail]
    rfl

/-- Witness for C1: a two-file batch where the second file has only
whitespace text (so its extraction is treated as a failure) and the first
succeeds; entry 1 ends ERROR with the extraction message, entry 0 SUCCESS. -/
theorem C1_sequentialIsolation_witness :
    (∃ r, (finalLedger okClient "Summarize this document." [goodFile, blankFile])[1]? =
        some r ∧
      (r.status = if 1 = 1 then ProcessingStatus.error else ProcessingStatus.success) ∧
      (1 = 1 → r.error = some (errorMessageOf (.err
        "Could not extract any text from the PDF. It might be an image-only PDF.")))) ∧
    (∃ r, (finalLedger okClient "Summarize this document." [goodFile, blankFile])[0]? =
        some r ∧
      (r.status = if 0 = 1 then ProcessingStatus.error else ProcessingStatus.success) ∧
      (0 = 1 → r.error = some (errorMessageOf (.err
        "Could not extract any text from the PDF. It might be an image-only PDF.")))) := by
  have h := C1_sequentialIsolation okClient "Summarize this document." [goodFile, blankFile]
    1 (.err "Could not extract any text from the PDF. It might be an image-only PDF.")
    (by decide) (by decide)
    (by
      intro j hj hjk
      have hj0 : j = 0 := by
        have hj2 : j < 2 := by simpa using hj
        omega
      subst hj0
      refine ⟨"a summary", ?_⟩
      have hg : [goodFile, blankFile][0] = goodFile := rfl
      rw [hg]
      decide)
  exact ⟨h 1 (by decide), h 0 (by decide)⟩

/-- **C4**: a model-client response whose text begins with the literal marker
`"Error"` (in particular exactly `"Error: xyz"`) makes the orchestrator
transition that file's entry to ERROR, with the response text recorded as the
entry's error message — not to SUCCESS. -/
theorem C4_errorMarkerDetection (client : String → Except JsThrown String)
    (prompt : String) (files : List PdfFile) (i : Nat) (t s : String)
    (hi : i < files.length)
    (hext : files[i].extraction = .ok t)
    (ht : jsTrim t ≠ "")
    (hclient : client (constructFullPrompt t prompt) = .ok s)
    (hs : jsStartsWith s "Error" = true) :
    ∃ r, (finalLedger client prompt files)[i]? = some r ∧
      r.status = ProcessingStatus.error ∧ r.error = some s := by
  have hout : processOutcome client prompt files[i] = .error (.err s) := by
    unfold processOutcome
    rw [hext]
    simp only [ht, if_false, hclient, hs, if_true]
  refine ⟨applyOutcome (initResult files[i]) (processOutcome client prompt files[i]),
    ?_, ?_, ?_⟩
  · rw [finalLedger_getElem?, List.getElem?_eq_getElem hi]
    rfl
  · rw [hout]
    rfl
  · rw [hout]
    rfl

/-- Witness for C4: a single-file batch whose client answers exactly
`"Error: xyz"`; the entry ends ERROR with message `"Error: xyz"`. -/
theorem C4_errorMarkerDetection_witness :
    ∃ r, (finalLedger markerClient "Summarize this document." [goodFile])[0]? = some r ∧
      r.status = ProcessingStatus.error ∧ r.error = some "Error: xyz" :=
  C4_errorMarkerDetection markerClient "Summarize this document." [goodFile] 0
    "some extracted text" "Error: xyz" (by decide) (by decide) (by decide)
    (by decide) (by decide)

/-- **C10**: a model client may return the empty string as a successful
response — Variant A (`generateSummaryFromText`) passes a successful remote
response text through without validating non-emptiness — and the orchestrator
then transitions the entry to SUCCESS with empty content: the only check
applied to a returned summary is the `"Error"` marker test, not
non-emptiness. -/
theorem C10_emptySummaryIsSuccess :
    (∀ remote p m, remote p = .ok "" → generateSummaryFromText remote p m = "") ∧
    (∀ (client : String → Except JsThrown String) (prompt : String)
        (files : List PdfFile) (i : Nat) (t : String), (hi : i < files.length) →
      files[i].extraction = .ok t → jsTrim t ≠ "" →
      client (constructFullPrompt t prompt) = .ok "" →
      ∃ r, (finalLedger client prompt files)[i]? = some r ∧
        r.status = ProcessingStatus.success ∧ r.content = "") := by
  constructor
  · intro remote p m hr
    unfold generateSummaryFromText
    rw [hr]
  · intro client prompt files i t hi hext ht hclient
    have hout : processOutcome client prompt files[i] = .ok "" := by
      unfold processOutcome
      rw [hext]
      simp only [ht, if_false, hclient]
      rfl
    refine ⟨applyOutcome (initResult files[i]) (processOutcome client prompt files[i]),
      ?_, ?_, ?_⟩
    · rw [finalLedger_getElem?, List.getElem?_eq_getElem hi]
      rfl
    · rw [hout]
      rfl
    · rw [hout]
      rfl

/-- Witness for C10: a single-file batch whose client answers `""`; the entry
ends SUCCESS with empty content. -/
theorem C10_emptySummaryIsSuccess_witness :
    generateSummaryFromText emptyClient "p" "gemini-2.5-flash" = "" ∧
    ∃ r, (finalLedger emptyClient "Summarize this document." [goodFile])[0]? = some r ∧
      r.status = ProcessingStatus.success ∧ r.content = "" :=
  ⟨C10_emptySummaryIsSuccess.1 emptyClient "p" "gemini-2.5-flash" (by decide),
   C10_emptySummaryIsSuccess.2 emptyClient "Summarize this document." [goodFile] 0
     "some extracted text" (by decide) (by decide) (by decide) (by decide)⟩

/-- **C7**: throughout any batch run, the ledger observable after `k`
iterations has exactly one entry per file fixed at batch start (no entry is
added or removed mid-batch), entry order equals input file order (entry `j`
always carries file `j`'s name), an entry still unprocessed is in state
PROCESSING, an already-processed entry already has its final value (so each
entry transitions at most once, from PROCESSING to exactly one of SUCCESS or
ERROR), and the ledger `handleGenerate` installs is the fully-processed
one. -/
theorem C7_ledgerInvariants (client : String → Except JsThrown String) (prompt : String)
    (files : List PdfFile) :
    (∀ k, (ledgerAfter client prompt files k).length = files.length) ∧
    (∀ k j, (hj : j < files.length) →
      ∃ r, (ledgerAfter client prompt files k)[j]? = some r ∧ r.fileName = files[j].name) ∧
    (∀ k j, k ≤ j → (ledgerAfter client prompt files k)[j]? = files[j]?.map initResult) ∧
    (∀ f : PdfFile, (initResult f).status = ProcessingStatus.processing) ∧
    (∀ k j, j < k →
      (ledgerAfter client prompt files k)[j]? = (finalLedger client prompt files)[j]?) ∧
    (∀ (j : Nat) (r : SummaryResult), (finalLedger client prompt files)[j]? = some r →
      r.status = ProcessingStatus.success ∨ r.status = ProcessingStatus.error) ∧
    (∀ st : AppState, ¬(st.files.length = 0 ∨ jsTrim st.prompt = "") →
      (handleGenerate client st).results =
        ledgerAfter client st.prompt st.files st.files.length) := by
  refine ⟨?_, ?_, ?_, ?_, ?_, ?_, ?_⟩
  · intro k
    exact ledgerAfter_length client prompt files k
  · intro k j hj
    rw [ledgerAfter_getElem?, List.getElem?_eq_getElem hj]
    by_cases hk : j < k
    · exact ⟨_, rfl, by simp [hk, applyOutcome_fileName, initResult]⟩
    · exact ⟨_, rfl, by simp [hk, initResult]⟩
  · intro k j hkj
    rw [ledgerAfter_getElem?]
    have hk : ¬ j < k := by omega
    cases files[j]? <;> simp [hk]
  · intro f
    rfl
  · intro k j hjk
    rw [ledgerAfter_getElem?, finalLedger_getElem?]
    cases files[j]? <;> simp [hjk]
  · intro j r hr
    rw [finalLedger_getElem?] at hr
    cases hf : files[j]? with
    | none => rw [hf] at hr; simp at hr
    | some f =>
      rw [hf] at hr
      have hr' : applyOutcome (initResult f) (processOutcome client prompt f) = r := by
        simpa using hr
      subst hr'
      cases processOutcome client prompt f with
      | ok s => left; rfl
      | error e => right; rfl
  · intro st h
    simp only [handleGenerate, h, if_false]
    rw [← finalLedger_eq_ledgerAfter]

/-- Witness for C7 on a concrete two-file batch, mid-batch (`k = 1`) and at
the `handleGenerate` boundary. -/
theorem C7_ledgerInvariants_witness :
    (ledgerAfter okClient "Summarize this document." [goodFile, blankFile] 1).length = 2 ∧
    (∃ r, (ledgerAfter okClient "Summarize this document." [goodFile, blankFile] 1)[0]? =
        some r ∧ r.fileName = "good.pdf") ∧
    (ledgerAfter okClient "Summarize this document." [goodFile, blankFile] 1)[1]? =
      [goodFile, blankFile][1]?.map initResult ∧
    (handleGenerate okClient sampleState).results =
      ledgerAfter okClient sampleState.prompt sampleState.files
        sampleState.files.length := by
  have h := C7_ledgerInvariants okClient "Summarize this document." [goodFile, blankFile]
  have h' := C7_ledgerInvariants okClient sampleState.prompt sampleState.files
  refine ⟨?_, ?_, ?_, ?_⟩
  · have := h.1 1
    simpa using this
  · obtain ⟨r, hr, hname⟩ := h.2.1 1 0 (by simp)
    refine ⟨r, hr, ?_⟩
    rw [hname]
    rfl
  · exact h.2.2.1 1 1 (by omega)
  · exact h'.2.2.2.2.2.2 sampleState (by decide)

/-- **C8**: export with zero SUCCESS entries surfaces the
no-successful-summaries notice and produces no archive; with at least one
SUCCESS entry it produces exactly one archive whose entries are exactly the
SUCCESS entries (one archive entry per SUCCESS entry, each derived from a
SUCCESS entry of the ledger, every SUCCESS entry represented, nothing else);
and the export control is available only once the batch is no longer running
(`allDone` is `false` whenever `isProcessing` is `true`). -/
theorem C8_exportGating :
    (∀ results : List SummaryResult,
      (results.filter (fun r => r.status == ProcessingStatus.success)).length = 0 →
      handleDownloadZip results = .notice "No successful summaries to download.") ∧
    (∀ results : List SummaryResult,
      (results.filter (fun r => r.status == ProcessingStatus.success)).length ≠ 0 →
      ∃ entries, handleDownloadZip results = .archive entries ∧
        entries.length =
          (results.filter (fun r => r.status == ProcessingStatus.success)).length ∧
        (∀ e ∈ entries, ∃ r ∈ results, r.status = ProcessingStatus.success ∧
          e = (zipEntryName r.fileName, r.content)) ∧
        (∀ r ∈ results, r.status = ProcessingStatus.success →
          (zipEntryName r.fileName, r.content) ∈ entries)) ∧
    (∀ (results : List SummaryResult) (isProcessing : Bool),
      isProcessing = true → allDone results isProcessing = false) ∧
    (∀ (results : List SummaryResult) (isProcessing : Bool),
      allDone results isProcessing = true → isProcessing = false ∧ results ≠ []) := by
  refine ⟨?_, ?_, ?_, ?_⟩
  · intro results h
    simp [handleDownloadZip, h]
  · intro results h
    refine ⟨(results.filter (fun r => r.status == ProcessingStatus.success)).map
        (fun r => (zipEntryName r.fileName, r.content)), ?_, ?_, ?_, ?_⟩
    · simp [handleDownloadZip, h]
    · simp
    · intro e he
      obtain ⟨r, hrf, hre⟩ := List.mem_map.mp he
      obtain ⟨hrr, hrs⟩ := List.mem_filter.mp hrf
      exact ⟨r, hrr, by simpa using hrs, hre.symm⟩
    · intro r hr hrs
      exact List.mem_map.mpr ⟨r, List.mem_filter.mpr ⟨hr, by simp [hrs]⟩, rfl⟩
  · intro results isProcessing h
    subst h
    simp [allDone]
  · intro results isProcessing h
    unfold allDone at h
    rw [Bool.and_eq_true] at h
    obtain ⟨h1, h2⟩ := h
    refine ⟨by simpa using h2, ?_⟩
    exact List.length_pos.mp (of_decide_eq_true h1)

/-- Witness for C8: an empty ledger yields the notice; a one-SUCCESS ledger
yields the archive characterization; `allDone` is `false` mid-batch and
`true` only with the batch idle and non-empty. -/
theorem C8_exportGating_witness :
    handleDownloadZip [] = .notice "No successful summaries to download." ∧
    (∃ entries, handleDownloadZip [staleEntry] = .archive entries ∧
      entries.length =
        ([staleEntry].filter (fun r => r.status == ProcessingStatus.success)).length ∧
      (∀ e ∈ entries, ∃ r ∈ [staleEntry], r.status = ProcessingStatus.success ∧
        e = (zipEntryName r.fileName, r.content)) ∧
      (∀ r ∈ [staleEntry], r.status = ProcessingStatus.success →
        (zipEntryName r.fileName, r.content) ∈ entries)) ∧
    allDone [staleEntry] true = false ∧
    (false = false ∧ [staleEntry] ≠ []) := by
  refine ⟨?_, ?_, ?_, ?_⟩
  · exact C8_exportGating.1 [] (by decide)
  · exact C8_exportGating.2.1 [staleEntry] (by decide)
  · exact C8_exportGating.2.2.1 [staleEntry] true rfl
  · exact C8_exportGating.2.2.2 [staleEntry] false (by decide)

/-- **C9**: selecting files resets the ledger, and starting a new batch (any
state whose guard passes, whatever its prior `results`) replaces the ledger
wholesale with the new batch's final ledger — which depends only on the
files, the prompt and the client, so old entries are never merged or
retained; and no entry is ever deleted mid-batch (the ledger length stays
the file count at every step). -/
theorem C9_wholesaleReplacement :
    (∀ (selectedFiles : List PdfFile) (st : AppState),
      (handleFileSelect selectedFiles st).results = []) ∧
    (∀ (client : String → Except JsThrown String) (st : AppState),
      ¬(st.files.length = 0 ∨ jsTrim st.prompt = "") →
      (handleGenerate client st).results = finalLedger client st.prompt st.files) ∧
    (∀ (client : String → Except JsThrown String) (st st' : AppState),
      st.files = st'.files → st.prompt = st'.prompt →
      ¬(st.files.length = 0 ∨ jsTrim st.prompt = "") →
      (handleGenerate client st).results = (handleGenerate client st').results) ∧
    (∀ (client : String → Except JsThrown String) (prompt : String)
        (files : List PdfFile) (k : Nat),
      (ledgerAfter client prompt files k).length = files.length) := by
  refine ⟨?_, ?_, ?_, ?_⟩
  · intro sel st
    rfl
  · intro client st h
    unfold handleGenerate
    rw [if_neg h]
  · intro client st st' hf hp h
    have h' : ¬(st'.files.length = 0 ∨ jsTrim st'.prompt = "") := by
      rw [← hf, ← hp]
      exact h
    unfold handleGenerate
    rw [if_neg h, if_neg h']
    simp only [hf, hp]
  · intro client prompt files k
    exact ledgerAfter_length client prompt files k

/-- Witness for C9: a fresh selection clears the sample state's ledger, and a
batch started from the sample state installs exactly the new final ledger. -/
theorem C9_wholesaleReplacement_witness :
    (handleFileSelect [goodFile] sampleState).results = [] ∧
    (handleGenerate okClient sampleState).results =
      finalLedger okClient sampleState.prompt sampleState.files ∧
    (ledgerAfter okClient sampleState.prompt sampleState.files 1).length =
      sampleState.files.length := by
  refine ⟨?_, ?_, ?_⟩
  · exact C9_wholesaleReplacement.1 [goodFile] sampleState
  · exact C9_wholesaleReplacement.2.1 okClient sampleState (by decide)
  · exact C9_wholesaleReplacement.2.2.2 okClient sampleState.prompt sampleState.files 1

end PdfBatch
